import Mathlib

/-!
Shallow embedding of `src/app.py` (EU-Resonance/hello-world-offer): a FastAPI
service that ingests a YAML metadata document and replays it as ten dependent
HTTP POST calls against a management API.

Modelling conventions:
* YAML/JSON values are modelled by the inductive `Json` (numbers as `Int`;
  floats and datetime scalars produced by YAML are not modelled — no claim
  involves them).
* The egress boundary is the call `requests.post(url, json=data,
  headers=headers, auth=auth)`: each such call is recorded as a `Request`
  value, and the network's behaviour is an oracle `List HttpOutcome` consumed
  one entry per POST in program order.  An exhausted oracle behaves like a
  transport error.  The header set such a request actually transmits is
  `wireHeaders`, which models requests' own preparation step: because an
  `auth=` object is also passed, `prepare_auth` runs after `prepare_headers`
  and overwrites the `Authorization` entry of the supplied dict with the
  `HTTPBasicAuth` value.
* Python exceptions that reach the top-level handler are the inductive
  `PyExc`; `strExc` models Python's `str(e)` for each (the exact wording of
  `UnboundLocalError` follows CPython 3.11+).
-/

namespace HelloWorldOffer

/-- JSON/YAML values as loaded by `yaml.safe_load` and returned by
`response.json()`. -/
inductive Json where
  | null
  | bool (b : Bool)
  | num (n : Int)
  | str (s : String)
  | arr (xs : List Json)
  | obj (kvs : List (String × Json))
deriving Repr

/-- Python `d[k]` on a mapping: first binding of the key, if any.
(Subscripting a non-mapping, which in Python raises `TypeError` rather than
`KeyError`, is collapsed to the same "no binding" outcome; both abort the
pipeline with HTTP 400 and no claim depends on the message difference.) -/
def Json.lookup : Json → String → Option Json
  | .obj kvs, k => (kvs.find? (fun p => p.1 = k)).map Prod.snd
  | _, _ => none

/-- Python `repr` of a JSON-like value, as used when a container is
interpolated into an f-string.  Escaping of quotes inside strings is not
modelled (no claim exercises it). -/
def pyRepr : Json → String
  | .null => "None"
  | .bool true => "True"
  | .bool false => "False"
  | .num n => toString n
  | .str s => "'" ++ s ++ "'"
  | .arr xs =>
      "[" ++ String.intercalate ", " (xs.attach.map (fun x => pyRepr x.1)) ++ "]"
  | .obj kvs =>
      "\x7b" ++ String.intercalate ", "
        (kvs.attach.map (fun p => "'" ++ p.1.1 ++ "': " ++ pyRepr p.1.2)) ++ "\x7d"
decreasing_by
  · obtain ⟨v, hv⟩ := x
    have h := List.sizeOf_lt_of_mem hv
    simp only [Json.arr.sizeOf_spec]
    omega
  · obtain ⟨⟨k, v⟩, hv⟩ := p
    have h := List.sizeOf_lt_of_mem hv
    simp only [Prod.mk.sizeOf_spec] at h
    simp only [Json.obj.sizeOf_spec]
    omega

/-- Python `str` of a JSON-like value, as interpolated by an f-string
(`str` of a string is the string itself; containers fall back to `repr`). -/
def pyStr : Json → String
  | .str s => s
  | .arr xs => pyRepr (.arr xs)
  | .obj kvs => pyRepr (.obj kvs)
  | v => pyRepr v

/-! ## Data model (`AuthDetails`, `Metadata` pydantic classes) -/

/-- Pydantic `class AuthDetails(BaseModel)`: `username: str`, `password: str`,
`auth_string: Optional[str] = None`. -/
structure AuthDetails where
  username : String
  password : String
  auth_string : Option String
deriving Repr

/-- Pydantic `class Metadata(BaseModel)`: `base_url: str`, `auth: AuthDetails` and the
ten payload blocks, each typed `dict`.  Payloads are kept as association
lists (the shape pydantic's `dict` guarantees). -/
structure Metadata where
  base_url : String
  auth : AuthDetails
  catalog : List (String × Json)
  representation : List (String × Json)
  offer : List (String × Json)
  resource_catalog : List (String × Json)
  representation_resource : List (String × Json)
  contract : List (String × Json)
  rule : List (String × Json)
  rule_contract : List (String × Json)
  artifact : List (String × Json)
  artifact_representation : List (String × Json)
deriving Repr

/-- Pydantic validation of one `str` field. -/
def fieldStr : Option Json → Except String String
  | some (.str s) => .ok s
  | _ => .error "str"

/-- Pydantic validation of one `dict` field. -/
def fieldDict : Option Json → Except String (List (String × Json))
  | some (.obj kvs) => .ok kvs
  | _ => .error "dict"

/-- Pydantic validation of `Optional[str]` with default `None`: absent or
explicit null yield `none`; a string yields it; anything else fails. -/
def fieldOptStr : Option Json → Except String (Option String)
  | none => .ok none
  | some .null => .ok none
  | some (.str s) => .ok (some s)
  | _ => .error "str|None"

/-- Validation performed by `AuthDetails(**...)` on the `auth` sub-object. -/
def validateAuth : Option Json → Except String AuthDetails
  | some j =>
      match j with
      | .obj _ => do
          let username ← fieldStr (j.lookup "username")
          let password ← fieldStr (j.lookup "password")
          let auth_string ← fieldOptStr (j.lookup "auth_string")
          pure ⟨username, password, auth_string⟩
      | _ => .error "AuthDetails"
  | none => .error "AuthDetails missing"

/-- Validation performed by `Metadata(**metadata)` on the whole uploaded document against
the pydantic schema.  A non-mapping document (where Python's `**` unpacking
raises `TypeError`) fails like any schema mismatch; error messages are
abbreviated — no claim depends on their wording, only on failure. -/
def validateMetadata (j : Json) : Except String Metadata :=
  match j with
  | .obj _ => do
      let base_url ← fieldStr (j.lookup "base_url")
      let auth ← validateAuth (j.lookup "auth")
      let catalog ← fieldDict (j.lookup "catalog")
      let representation ← fieldDict (j.lookup "representation")
      let offer ← fieldDict (j.lookup "offer")
      let resource_catalog ← fieldDict (j.lookup "resource_catalog")
      let representation_resource ← fieldDict (j.lookup "representation_resource")
      let contract ← fieldDict (j.lookup "contract")
      let rule ← fieldDict (j.lookup "rule")
      let rule_contract ← fieldDict (j.lookup "rule_contract")
      let artifact ← fieldDict (j.lookup "artifact")
      let artifact_representation ← fieldDict (j.lookup "artifact_representation")
      pure ⟨base_url, auth, catalog, representation, offer, resource_catalog,
            representation_resource, contract, rule, rule_contract, artifact,
            artifact_representation⟩
  | _ => .error "not a mapping"

/-! ## HTTP layer (`send_post_request`) -/

/-- One upstream HTTP response: status code, reason phrase, and the result of
`response.json()` — `.error msg` models a body that fails JSON decoding,
carrying the decoder's message. -/
structure Resp where
  status : Nat
  reason : String
  body : Except String Json
deriving Repr

/-- Behaviour of the network for one `requests.post` call. -/
inductive HttpOutcome where
  | success (resp : Resp)
  | transportError
deriving Repr

/-- One outgoing POST as handed to `requests.post(url, json=data,
headers=headers, auth=auth)`; `endpoint` records the path argument from which
`url` was built.  `headers` is the dict the repository code supplies; the
header set the request carries on the wire is `wireHeaders` of this record,
in which requests' `prepare_auth` has overwritten the `Authorization`
entry. -/
structure Request where
  endpoint : String
  url : String
  payload : List (String × Json)
  headers : List (String × String)
  auth : String × String
deriving Repr

/-- Python dictionary access `headers['base_url']` (the headers dictionary
built by `process_metadata` always carries the key; a missing key defaults to
`""` in the model). -/
def hget (headers : List (String × String)) (k : String) : String :=
  ((headers.find? (fun p => p.1 = k)).map Prod.snd).getD ""

/-- The standard base64 alphabet. -/
def b64Alphabet : List Char :=
  "ABCDEFGHIJKLMNOPQRSTUVWXYZabcdefghijklmnopqrstuvwxyz0123456789+/".data

/-- Character `n` (0-63) of the base64 alphabet. -/
def b64Char (n : ℕ) : Char := b64Alphabet.getD n 'A'

/-- Base64 encoding of a byte sequence, with `=` padding. -/
def b64Encode : List ℕ → String
  | [] => ""
  | [a] => String.mk [b64Char (a / 4), b64Char (a % 4 * 16), '=', '=']
  | [a, b] =>
      String.mk [b64Char (a / 4), b64Char (a % 4 * 16 + b / 16),
                 b64Char (b % 16 * 4), '=']
  | a :: b :: c :: rest =>
      String.mk [b64Char (a / 4), b64Char (a % 4 * 16 + b / 16),
                 b64Char (b % 16 * 4 + c / 64), b64Char (c % 64)] ++
        b64Encode rest

/-- Model of requests' `_basic_auth_str(username, password)`: the header
value `HTTPBasicAuth` installs, namely
`"Basic " + b64encode(username + ":" + password)` (codepoints taken as
bytes — credentials here are ASCII; requests latin-1-encodes). -/
def basicAuthStr (username password : String) : String :=
  "Basic " ++ b64Encode ((username ++ ":" ++ password).data.map Char.toNat)

/-- Replacement of one entry of a header dictionary (exact-key match: the
key involved is spelled identically on both sides, so requests'
case-insensitive dict behaves the same). -/
def setHeader : List (String × String) → String → String → List (String × String)
  | [], k, v => [(k, v)]
  | (k1, v1) :: rest, k, v =>
      if k1 = k then (k, v) :: rest else (k1, v1) :: setHeader rest k v

/-- Model of the requests library's request preparation (requests is a
third-party dependency; this is modelled from its source and documented
behaviour, not from the repository): `PreparedRequest.prepare` runs
`prepare_headers` with the `headers=` argument first and `prepare_auth`
last, and `HTTPBasicAuth.__call__` sets the prepared request's
`Authorization` header to `_basic_auth_str(username, password)`,
overwriting any `Authorization` entry supplied via `headers=`.  The header
set an issued `Request` actually carries on the wire is therefore its
headers dict with the `Authorization` entry replaced. -/
def wireHeaders (r : Request) : List (String × String) :=
  setHeader r.headers "Authorization" (basicAuthStr r.auth.1 r.auth.2)

/-- Exceptions of the Python program that reach `process_metadata`'s
top-level handler. -/
inductive PyExc where
  | httpException (status : Nat) (detail : String)
  | unboundLocalError
  | keyError (key : String)
deriving Repr

/-- CPython 3.11+ wording of the `UnboundLocalError` raised when line 46
evaluates `response.status_code` after `requests.post` itself failed. -/
def unboundLocalMsg : String :=
  "cannot access local variable 'response' where it is not associated with a value"

/-- Python `str(e)` for each modelled exception (FastAPI/Starlette
`HTTPException.__str__` is `f"\x7bstatus_code\x7d: \x7bdetail\x7d"`;
`str(KeyError(k))` is `repr(k)`). -/
def strExc : PyExc → String
  | .httpException status detail => toString status ++ ": " ++ detail
  | .unboundLocalError => unboundLocalMsg
  | .keyError k => "'" ++ k ++ "'"

/-- Model of `response.raise_for_status()`: the `HTTPError` message for status codes
400–599, `none` (no exception) otherwise. -/
def raiseForStatusMsg (status : Nat) (reason url : String) : Option String :=
  if 400 ≤ status ∧ status < 500 then
    some (toString status ++ " Client Error: " ++ reason ++ " for url: " ++ url)
  else if 500 ≤ status ∧ status < 600 then
    some (toString status ++ " Server Error: " ++ reason ++ " for url: " ++ url)
  else none

/-- Model of `send_post_request(endpoint, data, headers, auth)` for one oracle entry:
returns the issued `Request` and either the decoded JSON body or the
exception that escapes the function.  On a transport error `requests.post`
raises, the `except` block then touches the unbound `response` and raises
`UnboundLocalError`; on a bad status the `HTTPError` from
`raise_for_status` is re-raised as `HTTPException(response.status_code,
str(e))`; on a JSON-undecodable body the `JSONDecodeError` (a
`RequestException` in requests ≥ 2.27) is re-raised as
`HTTPException(response.status_code, str(e))` with the *successful* status. -/
def send_post_request (endpoint : String) (data : List (String × Json))
    (headers : List (String × String)) (auth : String × String)
    (o : HttpOutcome) : Request × Except PyExc Json :=
  let url := hget headers "base_url" ++ endpoint
  let req : Request := ⟨endpoint, url, data, headers, auth⟩
  match o with
  | .transportError => (req, .error .unboundLocalError)
  | .success resp =>
      match raiseForStatusMsg resp.status resp.reason url with
      | some msg => (req, .error (.httpException resp.status msg))
      | none =>
          match resp.body with
          | .ok j => (req, .ok j)
          | .error dm => (req, .error (.httpException resp.status dm))

/-! ## The orchestrating handler (`process_metadata`) -/

/-- Execution state of one handler invocation: the unconsumed part of the
network oracle and the POSTs issued so far, in order. -/
structure PState where
  oracle : List HttpOutcome
  calls : List Request
deriving Repr

/-- One sequential Python statement that may raise: it transforms the state
and either produces a value or an escaping exception. -/
def PipeM (α : Type) : Type := PState → PState × Except PyExc α

/-- Sequencing of Python statements: a raised exception skips everything
after it (no further statement runs). -/
def pbind {α β : Type} (x : PipeM α) (f : α → PipeM β) : PipeM β := fun st =>
  match x st with
  | (st1, .error e) => (st1, .error e)
  | (st1, .ok a) => f a st1

/-- A pure value (no state change, no exception). -/
def pret {α : Type} (a : α) : PipeM α := fun st => (st, .ok a)

/-- Lift an already-computed raise-or-value (e.g. a dictionary subscript). -/
def plift {α : Type} (r : Except PyExc α) : PipeM α := fun st => (st, r)

/-- One call to `send_post_request`: consumes the next oracle entry (an
exhausted oracle behaves as a transport error) and records the request. -/
def post (endpoint : String) (data : List (String × Json))
    (headers : List (String × String)) (auth : String × String) : PipeM Json :=
  fun st =>
    match st with
    | ⟨[], calls⟩ =>
        let pr := send_post_request endpoint data headers auth .transportError
        (⟨[], calls ++ [pr.1]⟩, pr.2)
    | ⟨o :: rest, calls⟩ =>
        let pr := send_post_request endpoint data headers auth o
        (⟨rest, calls ++ [pr.1]⟩, pr.2)

/-- Python `resp['id']`: the value, or the `KeyError('id')` the subscript
raises.  Evaluated while building the f-string, before the dependent
`send_post_request` is entered. -/
def getId (resp : Json) : Except PyExc Json :=
  match resp.lookup "id" with
  | some v => .ok v
  | none => .error (.keyError "id")

/-- The headers dictionary built by `process_metadata` (lines 61–65): the
f-string `f'Basic \x7bauth_string\x7d'` renders `None` as the text `None`,
and the dictionary doubles as the carrier of `base_url`. -/
def mkHeaders (m : Metadata) : List (String × String) :=
  [("Content-Type", "application/json"),
   ("Authorization", "Basic " ++ (match m.auth.auth_string with
                                  | some s => s
                                  | none => "None")),
   ("base_url", m.base_url)]

/-- Lines 68–91: the ten dependent POSTs and the aggregate response object,
in source order, with each dependent path built by f-string interpolation of
the earlier response's `id`. -/
def pipeline (m : Metadata) : PipeM (List (String × Json)) :=
  let headers := mkHeaders m
  let auth := (m.auth.username, m.auth.password)
  pbind (post "/api/catalogs" m.catalog headers auth) fun catalog_response =>
  pbind (post "/api/representations" m.representation headers auth) fun representation_response =>
  pbind (post "/api/offers" m.offer headers auth) fun offer_response =>
  pbind (plift (getId catalog_response)) fun catalogId =>
  pbind (post ("/api/catalogs/" ++ pyStr catalogId ++ "/offers") m.resource_catalog headers auth) fun resource_catalog_response =>
  pbind (plift (getId offer_response)) fun offerId =>
  pbind (post ("/api/offers/" ++ pyStr offerId ++ "/representations") m.representation_resource headers auth) fun representation_resource_response =>
  pbind (post "/api/contracts" m.contract headers auth) fun contract_response =>
  pbind (post "/api/rules" m.rule headers auth) fun rule_response =>
  pbind (plift (getId contract_response)) fun contractId =>
  pbind (post ("/api/contracts/" ++ pyStr contractId ++ "/rules") m.rule_contract headers auth) fun rule_contract_response =>
  pbind (post "/api/artifacts" m.artifact headers auth) fun artifact_response =>
  pbind (plift (getId representation_response)) fun representationId =>
  pbind (post ("/api/representations/" ++ pyStr representationId ++ "/artifacts") m.artifact_representation headers auth) fun artifact_representation_response =>
  pret
    [("catalog_response", catalog_response),
     ("representation_response", representation_response),
     ("offer_response", offer_response),
     ("resource_catalog_response", resource_catalog_response),
     ("representation_resource_response", representation_resource_response),
     ("contract_response", contract_response),
     ("rule_response", rule_response),
     ("rule_contract_response", rule_contract_response),
     ("artifact_response", artifact_response),
     ("artifact_representation_response", artifact_representation_response)]

/-- Exceptions raised before the pipeline starts. -/
inductive IngressError where
  | yamlError (msg : String)
  | validationError (msg : String)
deriving Repr

/-- Python `str(e)` of an ingress exception (wording abbreviated; no claim
depends on it). -/
def strIngress : IngressError → String
  | .yamlError msg => msg
  | .validationError msg => msg

/-- The body of the `try:` block of `process_metadata`: YAML parsing
(`y` is the outcome of `yaml.safe_load` on the uploaded bytes — parsing
itself is outside the repository), pydantic validation, then the ten-step
pipeline.  Returns the POSTs issued and either the aggregate response or the
escaping exception. -/
def process_metadata_core (y : Except String Json) (oracle : List HttpOutcome) :
    List Request × Except (IngressError ⊕ PyExc) (List (String × Json)) :=
  match y with
  | .error msg => ([], .error (.inl (.yamlError msg)))
  | .ok j =>
      match validateMetadata j with
      | .error msg => ([], .error (.inl (.validationError msg)))
      | .ok m =>
          let pr := pipeline m ⟨oracle, []⟩
          (pr.1.calls, pr.2.mapError .inr)

/-- The HTTP reply of the ingress endpoint. -/
inductive Reply where
  | ok (body : List (String × Json))
  | clientError (status : Nat) (detail : String)
deriving Repr

/-- Python `str(e)` for either kind of escaping exception. -/
def strAnyExc : IngressError ⊕ PyExc → String
  | .inl e => strIngress e
  | .inr e => strExc e

/-- Lines 48–95: the whole handler.  Any exception from the `try:` block is
caught by `except Exception` and re-raised as
`HTTPException(400, f"Failed to process metadata: \x7bstr(e)\x7d")`. -/
def process_metadata (y : Except String Json) (oracle : List HttpOutcome) :
    List Request × Reply :=
  let pr := process_metadata_core y oracle
  (pr.1,
   match pr.2 with
   | .ok body => .ok body
   | .error e => .clientError 400 ("Failed to process metadata: " ++ strAnyExc e))

/-! ## Generic string and oracle helpers used by the statements -/

/-- Tests whether `pat` occurs at the start of `s`. -/
def startsWithList : List Char → List Char → Bool
  | _, [] => true
  | [], _ :: _ => false
  | c :: cs, p :: ps => c = p && startsWithList cs ps

/-- Tests whether `pat` occurs somewhere in `s`. -/
def containsSubstrAux (pat : List Char) : List Char → Bool
  | [] => startsWithList [] pat
  | c :: cs => startsWithList (c :: cs) pat || containsSubstrAux pat cs

/-- The string `pat` occurs as a contiguous substring of `s`. -/
def containsSubstr (s pat : String) : Bool :=
  containsSubstrAux pat.data s.data

/-- Holds when `s` ends with the suffix `suf`. -/
def endsWith (s suf : String) : Prop := ∃ p, s = p ++ suf

/-- A "good" oracle entry for step `k`: status `gs k` with reason `gn k` and
a JSON-decodable body `gb k`. -/
def goodEntry (gs : ℕ → ℕ) (gn : ℕ → String) (gb : ℕ → Json) (k : ℕ) :
    HttpOutcome :=
  .success ⟨gs k, gn k, .ok (gb k)⟩

/-- The endpoint path of step `k` (0-based), given the `id` strings `gi 0`,
`gi 1`, `gi 2`, `gi 5` of the catalog, representation, offer and contract
responses. -/
def stepEndpoint (gi : ℕ → String) : ℕ → String
  | 0 => "/api/catalogs"
  | 1 => "/api/representations"
  | 2 => "/api/offers"
  | 3 => "/api/catalogs/" ++ gi 0 ++ "/offers"
  | 4 => "/api/offers/" ++ gi 2 ++ "/representations"
  | 5 => "/api/contracts"
  | 6 => "/api/rules"
  | 7 => "/api/contracts/" ++ gi 5 ++ "/rules"
  | 8 => "/api/artifacts"
  | 9 => "/api/representations/" ++ gi 1 ++ "/artifacts"
  | _ => ""

/-- The payload block submitted by step `k` (0-based). -/
def stepPayload (m : Metadata) : ℕ → List (String × Json)
  | 0 => m.catalog
  | 1 => m.representation
  | 2 => m.offer
  | 3 => m.resource_catalog
  | 4 => m.representation_resource
  | 5 => m.contract
  | 6 => m.rule
  | 7 => m.rule_contract
  | 8 => m.artifact
  | 9 => m.artifact_representation
  | _ => []

/-! ## Sample data used by the witnesses -/

/-- A concrete well-formed uploaded document. -/
def sampleDoc : Json := .obj
  [("base_url", .str "https://x.test"),
   ("auth", .obj [("username", .str "u"), ("password", .str "p"),
                  ("auth_string", .str "dGVzdDp0ZXN0")]),
   ("catalog", .obj [("title", .str "cat")]),
   ("representation", .obj [("title", .str "rep")]),
   ("offer", .obj [("title", .str "off")]),
   ("resource_catalog", .obj []),
   ("representation_resource", .obj []),
   ("contract", .obj []),
   ("rule", .obj []),
   ("rule_contract", .obj []),
   ("artifact", .obj []),
   ("artifact_representation", .obj [])]

/-- The record `sampleDoc` validates to. -/
def sampleMeta : Metadata :=
  ⟨"https://x.test", ⟨"u", "p", some "dGVzdDp0ZXN0"⟩,
   [("title", .str "cat")], [("title", .str "rep")], [("title", .str "off")],
   [], [], [], [], [], [], []⟩

/-- Concrete `id` strings returned by the sample upstream. -/
def sampleIds (k : ℕ) : String :=
  (["c1", "r1", "o1", "x4", "x5", "k1", "x7", "x8", "x9", "x10"].getD k "")

/-- Concrete upstream response bodies, each carrying an `id`. -/
def sampleBodies (k : ℕ) : Json := .obj [("id", .str (sampleIds k))]

/-! ## Reduction lemmas for the HTTP layer -/

/-- The request issued by `send_post_request` is determined by its arguments
alone, whatever the network does. -/
theorem send_post_request_fst (e : String) (d : List (String × Json))
    (H : List (String × String)) (a : String × String) (o : HttpOutcome) :
    (send_post_request e d H a o).1 = ⟨e, hget H "base_url" ++ e, d, H, a⟩ := by
  cases o with
  | transportError => rfl
  | success resp =>
      simp only [send_post_request]
      cases raiseForStatusMsg resp.status resp.reason (hget H "base_url" ++ e) with
      | some msg => rfl
      | none => cases resp.body <;> rfl

/-- Reduction: `raise_for_status` does not raise on a status below 400. -/
theorem raiseForStatusMsg_ok {s : ℕ} (h : s < 400) (reason url : String) :
    raiseForStatusMsg s reason url = none := by
  simp only [raiseForStatusMsg]
  rw [if_neg (by omega), if_neg (by omega)]

/-- The `HTTPError` message produced for a bad status (400–599). -/
def httpErrMsg (s : ℕ) (reason url : String) : String :=
  toString s ++ (if s < 500 then " Client Error: " else " Server Error: ") ++
    reason ++ " for url: " ++ url

/-- Reduction: `raise_for_status` raises on statuses 400–599, with a message ending in
the request URL. -/
theorem raiseForStatusMsg_bad {s : ℕ} (h4 : 400 ≤ s) (h6 : s < 600)
    (reason url : String) :
    raiseForStatusMsg s reason url = some (httpErrMsg s reason url) := by
  simp only [raiseForStatusMsg, httpErrMsg]
  by_cases h5 : s < 500
  · rw [if_pos ⟨h4, h5⟩, if_pos h5]
  · rw [if_neg (by omega), if_pos ⟨by omega, h6⟩, if_neg h5]

/-- A successful POST with decodable body returns the decoded body. -/
theorem send_post_request_ok {s : ℕ} (h : s < 400) (e : String)
    (d : List (String × Json)) (H : List (String × String))
    (a : String × String) (n : String) (b : Json) :
    send_post_request e d H a (.success ⟨s, n, .ok b⟩) =
      (⟨e, hget H "base_url" ++ e, d, H, a⟩, .ok b) := by
  simp only [send_post_request, raiseForStatusMsg_ok h]

/-- A POST answered with status 400–599 raises `HTTPException` carrying that
status and the `HTTPError` message (which ends with the URL). -/
theorem send_post_request_bad {s : ℕ} (h4 : 400 ≤ s) (h6 : s < 600)
    (e : String) (d : List (String × Json)) (H : List (String × String))
    (a : String × String) (n : String) (b : Except String Json) :
    send_post_request e d H a (.success ⟨s, n, b⟩) =
      (⟨e, hget H "base_url" ++ e, d, H, a⟩,
       .error (.httpException s (httpErrMsg s n (hget H "base_url" ++ e)))) := by
  simp only [send_post_request, raiseForStatusMsg_bad h4 h6]

/-- A successful POST whose body fails JSON decoding raises `HTTPException`
carrying the *successful* status and only the decoder's message. -/
theorem send_post_request_badjson {s : ℕ} (h : s < 400) (e : String)
    (d : List (String × Json)) (H : List (String × String))
    (a : String × String) (n : String) (dm : String) :
    send_post_request e d H a (.success ⟨s, n, .error dm⟩) =
      (⟨e, hget H "base_url" ++ e, d, H, a⟩,
       .error (.httpException s dm)) := by
  simp only [send_post_request, raiseForStatusMsg_ok h]

/-! ## The shape of a fully or partially completed run -/

/-- The key under which step `k`'s response is returned. -/
def stepName : ℕ → String
  | 0 => "catalog_response"
  | 1 => "representation_response"
  | 2 => "offer_response"
  | 3 => "resource_catalog_response"
  | 4 => "representation_resource_response"
  | 5 => "contract_response"
  | 6 => "rule_response"
  | 7 => "rule_contract_response"
  | 8 => "artifact_response"
  | 9 => "artifact_representation_response"
  | _ => ""

/-- The first `N` requests a run issues, given the threading ids `gi`. -/
def prefixCalls (m : Metadata) (gi : ℕ → String) (N : ℕ) : List Request :=
  (List.range N).map fun k =>
    ⟨stepEndpoint gi k, m.base_url ++ stepEndpoint gi k, stepPayload m k,
     mkHeaders m, (m.auth.username, m.auth.password)⟩

/-- All ten requests of a complete run. -/
def fullCalls (m : Metadata) (gi : ℕ → String) : List Request :=
  prefixCalls m gi 10

/-- The aggregate response object of a complete run. -/
def fullResult (gb : ℕ → Json) : List (String × Json) :=
  (List.range 10).map fun k => (stepName k, gb k)

theorem hget_mkHeaders_base (m : Metadata) :
    hget (mkHeaders m) "base_url" = m.base_url := rfl

theorem hget_mkHeaders_ctype (m : Metadata) :
    hget (mkHeaders m) "Content-Type" = "application/json" := rfl

theorem hget_mkHeaders_auth (m : Metadata) :
    hget (mkHeaders m) "Authorization" =
      "Basic " ++ (match m.auth.auth_string with
                   | some s => s
                   | none => "None") := rfl

theorem endsWith_self (p suf : String) : endsWith (p ++ suf) suf := ⟨p, rfl⟩

theorem endsWith_appendLeft (a : String) {d suf : String}
    (h : endsWith d suf) : endsWith (a ++ d) suf := by
  obtain ⟨p, rfl⟩ := h
  exact ⟨a ++ p, (String.append_assoc a p suf).symm⟩

/-- The client-facing detail built from a bad-status step ends with the
step's endpoint path. -/
theorem endsWith_errDetail (s : ℕ) (n base ep : String) :
    endsWith ("Failed to process metadata: " ++
      strExc (.httpException s (httpErrMsg s n (base ++ ep)))) ep := by
  simp only [strExc, httpErrMsg]
  exact endsWith_appendLeft _ (endsWith_appendLeft _
    (endsWith_appendLeft _ (endsWith_self base ep)))

/-- Characterization of a run in which all ten steps succeed with decodable
bodies and the four threading ids are present: the state after the run holds
exactly the ten requests, in order, and the value is the aggregate response
object. -/
theorem pipeline_success (m : Metadata)
    (gs : ℕ → ℕ) (gn : ℕ → String) (gb : ℕ → Json) (gi : ℕ → String)
    (hgood : ∀ k, gs k < 400)
    (h0 : (gb 0).lookup "id" = some (.str (gi 0)))
    (h2 : (gb 2).lookup "id" = some (.str (gi 2)))
    (h5 : (gb 5).lookup "id" = some (.str (gi 5)))
    (h1 : (gb 1).lookup "id" = some (.str (gi 1)))
    (rest : List HttpOutcome) :
    pipeline m ⟨(List.range 10).map (goodEntry gs gn gb) ++ rest, []⟩ =
      (⟨rest, fullCalls m gi⟩, .ok (fullResult gb)) := by
  have hor : (List.range 10).map (goodEntry gs gn gb) =
      [goodEntry gs gn gb 0, goodEntry gs gn gb 1, goodEntry gs gn gb 2,
       goodEntry gs gn gb 3, goodEntry gs gn gb 4, goodEntry gs gn gb 5,
       goodEntry gs gn gb 6, goodEntry gs gn gb 7, goodEntry gs gn gb 8,
       goodEntry gs gn gb 9] := rfl
  rw [hor]
  simp only [pipeline, pbind, post, plift, pret, goodEntry,
    send_post_request_ok (hgood 0), send_post_request_ok (hgood 1),
    send_post_request_ok (hgood 2), send_post_request_ok (hgood 3),
    send_post_request_ok (hgood 4), send_post_request_ok (hgood 5),
    send_post_request_ok (hgood 6), send_post_request_ok (hgood 7),
    send_post_request_ok (hgood 8), send_post_request_ok (hgood 9),
    getId, h0, h1, h2, h5, pyStr, hget_mkHeaders_base,
    fullCalls, prefixCalls, fullResult, stepEndpoint, stepPayload, stepName,
    List.nil_append, List.cons_append]
  simp [List.range_succ]

/-! ## Invariants of every issued request -/

/-- Holds when `x` only ever adds requests satisfying `P` to the call log. -/
def PreservesCalls (P : Request → Prop) {α : Type} (x : PipeM α) : Prop :=
  ∀ st, (∀ r ∈ st.calls, P r) → ∀ r ∈ (x st).1.calls, P r

theorem pret_preserves (P : Request → Prop) {α : Type} (a : α) :
    PreservesCalls P (pret a) := fun _ h => h

theorem plift_preserves (P : Request → Prop) {α : Type} (r : Except PyExc α) :
    PreservesCalls P (plift r) := fun _ h => h

theorem pbind_preserves {α β : Type} {x : PipeM α} {f : α → PipeM β}
    {P : Request → Prop} (hx : PreservesCalls P x)
    (hf : ∀ a, PreservesCalls P (f a)) : PreservesCalls P (pbind x f) := by
  intro st hst r hr
  unfold pbind at hr
  rcases hx2 : x st with ⟨st1, res⟩
  rw [hx2] at hr
  cases res with
  | error e => exact hx st hst r (by rw [hx2]; exact hr)
  | ok a =>
      exact hf a st1 (fun r2 hr2 => hx st hst r2 (by rw [hx2]; exact hr2)) r hr

theorem post_preserves {P : Request → Prop} (e : String)
    (d : List (String × Json)) (H : List (String × String))
    (a : String × String)
    (hnew : P ⟨e, hget H "base_url" ++ e, d, H, a⟩) :
    PreservesCalls P (post e d H a) := by
  intro st hst r hr
  obtain ⟨oracle, calls⟩ := st
  have hcalls : ∀ r2 ∈ calls, P r2 := hst
  cases oracle with
  | nil =>
      simp only [post, send_post_request_fst] at hr
      rcases List.mem_append.mp hr with h | h
      · exact hcalls r h
      · rw [List.mem_singleton.mp h]; exact hnew
  | cons o rest =>
      simp only [post, send_post_request_fst] at hr
      rcases List.mem_append.mp hr with h | h
      · exact hcalls r h
      · rw [List.mem_singleton.mp h]; exact hnew

/-- Every request the pipeline ever issues uses the one headers dictionary,
the one auth pair, and a URL that is the literal concatenation of
`headers['base_url']` and the endpoint path. -/
theorem pipeline_preserves {P : Request → Prop} (m : Metadata)
    (hnew : ∀ e d, P ⟨e, hget (mkHeaders m) "base_url" ++ e, d, mkHeaders m,
                      (m.auth.username, m.auth.password)⟩) :
    PreservesCalls P (pipeline m) := by
  unfold pipeline
  repeat first
    | exact pret_preserves _ _
    | exact plift_preserves _ _
    | apply pbind_preserves
    | exact post_preserves _ _ _ _ (hnew _ _)
    | intro a

/-- Transferring the invariant to the handler's call log. -/
theorem process_calls_inv {P : Request → Prop} (j : Json) (m : Metadata)
    (hm : validateMetadata j = .ok m) (oracle : List HttpOutcome)
    (hnew : ∀ e d, P ⟨e, hget (mkHeaders m) "base_url" ++ e, d, mkHeaders m,
                      (m.auth.username, m.auth.password)⟩) :
    ∀ r ∈ (process_metadata (.ok j) oracle).1, P r := by
  intro r hr
  simp only [process_metadata, process_metadata_core, hm] at hr
  exact pipeline_preserves m hnew ⟨oracle, []⟩ (by simp) r hr

/-- A network oracle on which every step succeeds with status 201 and a body
carrying an `id`. -/
def sampleOracle : List HttpOutcome :=
  (List.range 10).map (goodEntry (fun _ => 201) (fun _ => "Created") sampleBodies) ++ []

/-! ## The claims -/

/-- Claim C1: for every well-formed SubmissionDocument for which all ten
upstream POST calls succeed and return JSON-decodable bodies (the threading
ids being present, without which ten calls cannot occur), the pipeline
returns a mapping with exactly the ten expected keys, in order, each bound
to the exact decoded JSON body of the corresponding upstream call. -/
theorem success_response_has_ten_keys (j : Json) (m : Metadata)
    (hm : validateMetadata j = .ok m)
    (gs : ℕ → ℕ) (gn : ℕ → String) (gb : ℕ → Json) (gi : ℕ → String)
    (hgood : ∀ k, gs k < 400)
    (h0 : (gb 0).lookup "id" = some (.str (gi 0)))
    (h2 : (gb 2).lookup "id" = some (.str (gi 2)))
    (h5 : (gb 5).lookup "id" = some (.str (gi 5)))
    (h1 : (gb 1).lookup "id" = some (.str (gi 1)))
    (rest : List HttpOutcome) :
    (process_metadata (.ok j)
        ((List.range 10).map (goodEntry gs gn gb) ++ rest)).2 =
      .ok [("catalog_response", gb 0),
           ("representation_response", gb 1),
           ("offer_response", gb 2),
           ("resource_catalog_response", gb 3),
           ("representation_resource_response", gb 4),
           ("contract_response", gb 5),
           ("rule_response", gb 6),
           ("rule_contract_response", gb 7),
           ("artifact_response", gb 8),
           ("artifact_representation_response", gb 9)] := by
  simp only [process_metadata, process_metadata_core, hm,
    pipeline_success m gs gn gb gi hgood h0 h2 h5 h1 rest]
  simp [fullResult, stepName, List.range_succ, Except.mapError]

theorem success_response_has_ten_keys_witness :
    (process_metadata (.ok sampleDoc) sampleOracle).2 =
      .ok [("catalog_response", sampleBodies 0),
           ("representation_response", sampleBodies 1),
           ("offer_response", sampleBodies 2),
           ("resource_catalog_response", sampleBodies 3),
           ("representation_resource_response", sampleBodies 4),
           ("contract_response", sampleBodies 5),
           ("rule_response", sampleBodies 6),
           ("rule_contract_response", sampleBodies 7),
           ("artifact_response", sampleBodies 8),
           ("artifact_representation_response", sampleBodies 9)] :=
  success_response_has_ten_keys sampleDoc sampleMeta rfl
    (fun _ => 201) (fun _ => "Created") sampleBodies sampleIds
    (fun _ => by norm_num) rfl rfl rfl rfl []

/-- Claim C2: the pipeline issues its POST calls in exactly the ten-step
order of the specification, and the path parameter of each dependent step is
the verbatim `id` string of the named earlier step's decoded response. -/
theorem call_order_and_id_threading (j : Json) (m : Metadata)
    (hm : validateMetadata j = .ok m)
    (gs : ℕ → ℕ) (gn : ℕ → String) (gb : ℕ → Json) (gi : ℕ → String)
    (hgood : ∀ k, gs k < 400)
    (h0 : (gb 0).lookup "id" = some (.str (gi 0)))
    (h2 : (gb 2).lookup "id" = some (.str (gi 2)))
    (h5 : (gb 5).lookup "id" = some (.str (gi 5)))
    (h1 : (gb 1).lookup "id" = some (.str (gi 1)))
    (rest : List HttpOutcome) :
    (process_metadata (.ok j)
        ((List.range 10).map (goodEntry gs gn gb) ++ rest)).1.map
        (fun r => (r.endpoint, r.payload)) =
      [("/api/catalogs", m.catalog),
       ("/api/representations", m.representation),
       ("/api/offers", m.offer),
       ("/api/catalogs/" ++ gi 0 ++ "/offers", m.resource_catalog),
       ("/api/offers/" ++ gi 2 ++ "/representations", m.representation_resource),
       ("/api/contracts", m.contract),
       ("/api/rules", m.rule),
       ("/api/contracts/" ++ gi 5 ++ "/rules", m.rule_contract),
       ("/api/artifacts", m.artifact),
       ("/api/representations/" ++ gi 1 ++ "/artifacts", m.artifact_representation)] := by
  simp only [process_metadata, process_metadata_core, hm,
    pipeline_success m gs gn gb gi hgood h0 h2 h5 h1 rest]
  simp [fullCalls, prefixCalls, stepEndpoint, stepPayload, List.range_succ]

theorem call_order_and_id_threading_witness :
    (process_metadata (.ok sampleDoc) sampleOracle).1.map
        (fun r => (r.endpoint, r.payload)) =
      [("/api/catalogs", sampleMeta.catalog),
       ("/api/representations", sampleMeta.representation),
       ("/api/offers", sampleMeta.offer),
       ("/api/catalogs/" ++ "c1" ++ "/offers", sampleMeta.resource_catalog),
       ("/api/offers/" ++ "o1" ++ "/representations", sampleMeta.representation_resource),
       ("/api/contracts", sampleMeta.contract),
       ("/api/rules", sampleMeta.rule),
       ("/api/contracts/" ++ "k1" ++ "/rules", sampleMeta.rule_contract),
       ("/api/artifacts", sampleMeta.artifact),
       ("/api/representations/" ++ "r1" ++ "/artifacts", sampleMeta.artifact_representation)] :=
  call_order_and_id_threading sampleDoc sampleMeta rfl
    (fun _ => 201) (fun _ => "Created") sampleBodies sampleIds
    (fun _ => by norm_num) rfl rfl rfl rfl []

/-- Claim C3: if step `N` (1 ≤ N ≤ 10) is answered with a non-success status
(the 400–599 range that `raise_for_status` rejects) after steps `1..N-1`
succeeded, then exactly the first `N` POSTs are issued — steps `N+1..10`
never run — and the client error is a 400 whose detail ends with step `N`'s
endpoint path (via the failing request's URL). -/
theorem failure_short_circuits_pipeline (j : Json) (m : Metadata)
    (hm : validateMetadata j = .ok m)
    (N : ℕ) (hN1 : 1 ≤ N) (hN10 : N ≤ 10)
    (gs : ℕ → ℕ) (gn : ℕ → String) (gb : ℕ → Json) (gi : ℕ → String)
    (hgood : ∀ k, gs k < 400)
    (hid : ∀ k, (gb k).lookup "id" = some (.str (gi k)))
    (s' : ℕ) (hs4 : 400 ≤ s') (hs6 : s' < 600) (n' : String)
    (b' : Except String Json) (rest : List HttpOutcome) :
    process_metadata (.ok j)
        ((List.range (N - 1)).map (goodEntry gs gn gb) ++
          (.success ⟨s', n', b'⟩) :: rest) =
      (prefixCalls m gi N,
       .clientError 400 ("Failed to process metadata: " ++
         strExc (.httpException s'
           (httpErrMsg s' n' (m.base_url ++ stepEndpoint gi (N - 1)))))) ∧
    (prefixCalls m gi N).length = N ∧
    endsWith ("Failed to process metadata: " ++
        strExc (.httpException s'
          (httpErrMsg s' n' (m.base_url ++ stepEndpoint gi (N - 1)))))
      (stepEndpoint gi (N - 1)) := by
  refine ⟨?_, by simp [prefixCalls], endsWith_errDetail _ _ _ _⟩
  interval_cases N <;>
  · simp only [Nat.reduceSub, List.range_succ, List.range_zero,
      List.map_append, List.map_cons, List.map_nil, List.append_assoc,
      List.cons_append, List.nil_append, List.singleton_append]
    simp only [process_metadata, process_metadata_core, hm, pipeline, pbind,
      post, plift, pret, goodEntry,
      send_post_request_ok (hgood 0), send_post_request_ok (hgood 1),
      send_post_request_ok (hgood 2), send_post_request_ok (hgood 3),
      send_post_request_ok (hgood 4), send_post_request_ok (hgood 5),
      send_post_request_ok (hgood 6), send_post_request_ok (hgood 7),
      send_post_request_ok (hgood 8),
      send_post_request_bad hs4 hs6,
      getId, hid, pyStr, hget_mkHeaders_base,
      prefixCalls, stepEndpoint, stepPayload, strAnyExc, strExc, httpErrMsg,
      Except.mapError]
    try simp [List.range_succ]

theorem failure_short_circuits_pipeline_witness :
    (process_metadata (.ok sampleDoc)
        ((List.range 3).map
            (goodEntry (fun _ => 201) (fun _ => "Created") sampleBodies) ++
          (.success ⟨404, "Not Found", .ok .null⟩) :: []) =
      (prefixCalls sampleMeta sampleIds 4,
       .clientError 400 ("Failed to process metadata: " ++
         strExc (.httpException 404
           (httpErrMsg 404 "Not Found"
             (sampleMeta.base_url ++ stepEndpoint sampleIds 3)))))) ∧
    (prefixCalls sampleMeta sampleIds 4).length = 4 ∧
    endsWith ("Failed to process metadata: " ++
        strExc (.httpException 404
          (httpErrMsg 404 "Not Found"
            (sampleMeta.base_url ++ stepEndpoint sampleIds 3))))
      (stepEndpoint sampleIds 3) :=
  failure_short_circuits_pipeline sampleDoc sampleMeta rfl 4 (by norm_num)
    (by norm_num) (fun _ => 201) (fun _ => "Created") sampleBodies sampleIds
    (fun _ => by norm_num) (fun _ => rfl) 404 (by norm_num) (by norm_num)
    "Not Found" (.ok .null) []

/-- Claim C4: whatever the uploaded document and whatever the network does,
the handler's reply is either the success object or HTTP 400 carrying the
escaping exception's textual description — never any other status code. -/
theorem handler_collapses_to_400 (y : Except String Json)
    (oracle : List HttpOutcome) :
    (∃ body, (process_metadata y oracle).2 = .ok body) ∨
    (∃ e, (process_metadata y oracle).2 =
        .clientError 400 ("Failed to process metadata: " ++ strAnyExc e)) := by
  rcases h : process_metadata_core y oracle with ⟨calls, res⟩
  cases res with
  | ok body => exact .inl ⟨body, by simp [process_metadata, h]⟩
  | error e => exact .inr ⟨e, by simp [process_metadata, h]⟩

theorem hget_setHeader_auth (m : Metadata) (v : String) :
    hget (setHeader (mkHeaders m) "Authorization" v) "Authorization" = v := rfl

/-- Claim C5, counterexample: the code does put the literal
`Basic <auth_string>` into the headers dict, but it also passes
`HTTPBasicAuth(username, password)` (lines 40 and 59), and requests'
`prepare_auth` runs after `prepare_headers` and overwrites the
`Authorization` entry.  For the sample document
(`auth_string = "dGVzdDp0ZXN0"`, username `u`, password `p`) the request
issued at step 1 carries on the wire the Authorization value `Basic dTpw`
(base64 of `u:p`), not `Basic dGVzdDp0ZXN0`. -/
theorem authorization_header_overridden_cex :
    (process_metadata (.ok sampleDoc) [.transportError]).1 =
      [⟨"/api/catalogs", "https://x.test/api/catalogs",
        [("title", .str "cat")], mkHeaders sampleMeta, ("u", "p")⟩] ∧
    sampleMeta.auth.auth_string = some "dGVzdDp0ZXN0" ∧
    hget (wireHeaders ⟨"/api/catalogs", "https://x.test/api/catalogs",
        [("title", .str "cat")], mkHeaders sampleMeta, ("u", "p")⟩)
      "Authorization" = "Basic dTpw" ∧
    hget (wireHeaders ⟨"/api/catalogs", "https://x.test/api/catalogs",
        [("title", .str "cat")], mkHeaders sampleMeta, ("u", "p")⟩)
      "Authorization" ≠ "Basic dGVzdDp0ZXN0" := by
  refine ⟨rfl, rfl, rfl, ?_⟩
  decide

/-- Claim C5, amended: for every request the pipeline issues, the headers
dict the code supplies carries an `Authorization` entry equal to the literal
`"Basic "` followed by the document's `auth_string` (the literal
`"Basic None"` when it is absent) — but the `Authorization` header the
outgoing request actually carries is
`"Basic " ++ base64(username ++ ":" ++ password)`, installed by
`HTTPBasicAuth` from the username and password alone, whatever
`auth_string` is. -/
theorem authorization_header_overridden (j : Json) (m : Metadata)
    (hm : validateMetadata j = .ok m) (oracle : List HttpOutcome) :
    ∀ r ∈ (process_metadata (.ok j) oracle).1,
      hget r.headers "Authorization" =
        "Basic " ++ (match m.auth.auth_string with
                     | some s => s
                     | none => "None") ∧
      hget (wireHeaders r) "Authorization" =
        basicAuthStr m.auth.username m.auth.password := by
  have h := process_calls_inv
    (P := fun r => r.headers = mkHeaders m ∧
      r.auth = (m.auth.username, m.auth.password)) j m hm oracle
    (fun _ _ => ⟨rfl, rfl⟩)
  intro r hr
  obtain ⟨hh, ha⟩ := h r hr
  constructor
  · rw [hh, hget_mkHeaders_auth]
  · simp only [wireHeaders, hh, ha]
    exact hget_setHeader_auth m _

theorem authorization_header_overridden_witness :
    (hget (Request.mk "/api/catalogs" "https://x.test/api/catalogs"
        [("title", Json.str "cat")] (mkHeaders sampleMeta) ("u", "p")).headers
      "Authorization" = "Basic " ++ "dGVzdDp0ZXN0") ∧
    (hget (wireHeaders (Request.mk "/api/catalogs"
        "https://x.test/api/catalogs" [("title", Json.str "cat")]
        (mkHeaders sampleMeta) ("u", "p"))) "Authorization" =
      basicAuthStr "u" "p") :=
  authorization_header_overridden sampleDoc sampleMeta rfl [.transportError] _
    (List.Mem.head _)

/-- Claim C6: a document that is not valid YAML, or that fails the pydantic
schema (a required top-level field missing or mistyped), produces an HTTP
400 client error and zero network calls. -/
theorem validation_failure_no_calls (oracle : List HttpOutcome) :
    (∀ msg, process_metadata (.error msg) oracle =
        ([], .clientError 400 ("Failed to process metadata: " ++ msg))) ∧
    (∀ j msg, validateMetadata j = .error msg →
        process_metadata (.ok j) oracle =
          ([], .clientError 400 ("Failed to process metadata: " ++ msg))) := by
  constructor
  · intro msg
    simp [process_metadata, process_metadata_core, strAnyExc, strIngress]
  · intro j msg hv
    simp [process_metadata, process_metadata_core, hv, strAnyExc, strIngress]

theorem validation_failure_no_calls_witness :
    (process_metadata (.error "yaml parse error") [] =
      ([], .clientError 400 "Failed to process metadata: yaml parse error")) ∧
    (process_metadata (.ok (.arr [])) [] =
      ([], .clientError 400 "Failed to process metadata: not a mapping")) :=
  ⟨(validation_failure_no_calls []).1 "yaml parse error",
   (validation_failure_no_calls []).2 (.arr []) "not a mapping" rfl⟩

/-- Claim C7, counterexample: a transport error at step 1 (endpoint
`/api/catalogs`) aborts the pipeline, but the resulting error is the
`UnboundLocalError` from line 46's access to the unbound `response`
variable: the client-facing detail does not contain the failing step's
endpoint (nor any part of it). -/
theorem failure_error_endpoint_cex :
    process_metadata (.ok sampleDoc) [.transportError] =
      ([⟨"/api/catalogs", "https://x.test/api/catalogs",
         [("title", .str "cat")], mkHeaders sampleMeta, ("u", "p")⟩],
       .clientError 400 ("Failed to process metadata: " ++ unboundLocalMsg)) ∧
    containsSubstr ("Failed to process metadata: " ++ unboundLocalMsg)
      "/api/catalogs" = false ∧
    containsSubstr ("Failed to process metadata: " ++ unboundLocalMsg)
      "api" = false := by
  refine ⟨rfl, ?_, ?_⟩ <;> decide

/-- Claim C7, amended: any failing step aborts all remaining steps (a raised
exception propagates past every later statement).  A step answered with a
non-success status (400–599) raises an error carrying the upstream status
code and a message ending with the full request URL (hence the endpoint).  A
transport error instead raises `UnboundLocalError`, which carries neither
endpoint nor status; a JSON-undecodable body raises an error carrying the
response's own (successful) status code and only the decoder's message. -/
theorem failure_modes_characterized :
    (∀ (α β : Type) (x : PipeM α) (f : α → PipeM β) st st1 ε,
       x st = (st1, .error ε) → pbind x f st = (st1, .error ε)) ∧
    (∀ e d H a, send_post_request e d H a .transportError =
       (⟨e, hget H "base_url" ++ e, d, H, a⟩, .error .unboundLocalError)) ∧
    (∀ e d H a (s : ℕ), 400 ≤ s → s < 600 → ∀ n b,
       send_post_request e d H a (.success ⟨s, n, b⟩) =
         (⟨e, hget H "base_url" ++ e, d, H, a⟩,
          .error (.httpException s
            (httpErrMsg s n (hget H "base_url" ++ e)))) ∧
       endsWith (httpErrMsg s n (hget H "base_url" ++ e))
         (hget H "base_url" ++ e)) ∧
    (∀ e d H a (s : ℕ), s < 400 → ∀ n dm,
       send_post_request e d H a (.success ⟨s, n, .error dm⟩) =
         (⟨e, hget H "base_url" ++ e, d, H, a⟩,
          .error (.httpException s dm))) := by
  refine ⟨?_, fun e d H a => rfl, ?_, ?_⟩
  · intro α β x f st st1 ε hx
    simp only [pbind, hx]
  · intro e d H a s h4 h6 n b
    refine ⟨send_post_request_bad h4 h6 e d H a n b, ?_⟩
    simp only [httpErrMsg]
    exact endsWith_self _ _
  · intro e d H a s h n dm
    exact send_post_request_badjson h e d H a n dm

theorem failure_modes_characterized_witness :
    (pbind (post "/api/catalogs" [] (mkHeaders sampleMeta) ("u", "p"))
        (fun _ => pret (0 : ℕ)) ⟨[.transportError], []⟩ =
      (⟨[], [⟨"/api/catalogs", "https://x.test/api/catalogs", [],
             mkHeaders sampleMeta, ("u", "p")⟩]⟩,
       .error .unboundLocalError)) ∧
    (send_post_request "/api/catalogs" [] (mkHeaders sampleMeta) ("u", "p")
        .transportError =
      (⟨"/api/catalogs", "https://x.test/api/catalogs", [],
        mkHeaders sampleMeta, ("u", "p")⟩, .error .unboundLocalError)) ∧
    (send_post_request "/api/catalogs" [] (mkHeaders sampleMeta) ("u", "p")
        (.success ⟨404, "Not Found", .ok .null⟩) =
      (⟨"/api/catalogs", "https://x.test/api/catalogs", [],
        mkHeaders sampleMeta, ("u", "p")⟩,
       .error (.httpException 404
         "404 Client Error: Not Found for url: https://x.test/api/catalogs"))) ∧
    (send_post_request "/api/catalogs" [] (mkHeaders sampleMeta) ("u", "p")
        (.success ⟨200, "OK", .error "Expecting value: line 1 column 1 (char 0)"⟩) =
      (⟨"/api/catalogs", "https://x.test/api/catalogs", [],
        mkHeaders sampleMeta, ("u", "p")⟩,
       .error (.httpException 200
         "Expecting value: line 1 column 1 (char 0)"))) := by
  refine ⟨?_, ?_, ?_, ?_⟩
  · exact failure_modes_characterized.1 Json ℕ _ _ _ _ _ rfl
  · exact failure_modes_characterized.2.1 "/api/catalogs" []
      (mkHeaders sampleMeta) ("u", "p")
  · exact (failure_modes_characterized.2.2.1 "/api/catalogs" []
      (mkHeaders sampleMeta) ("u", "p") 404 (by norm_num) (by norm_num)
      "Not Found" (.ok .null)).1
  · exact failure_modes_characterized.2.2.2 "/api/catalogs" []
      (mkHeaders sampleMeta) ("u", "p") 200 (by norm_num) "OK"
      "Expecting value: line 1 column 1 (char 0)"

/-- Claim C8: every outgoing POST's target URL is the exact string
concatenation of the document's `base_url` and the step's endpoint path —
no slash deduplication or any other normalization (a trailing slash on the
base URL yields a double slash). -/
theorem url_is_exact_concatenation :
    (∀ j m, validateMetadata j = .ok m → ∀ oracle,
       ∀ r ∈ (process_metadata (.ok j) oracle).1,
         r.url = m.base_url ++ r.endpoint) ∧
    (send_post_request "/api/catalogs" [] [("base_url", "https://x.test")]
        ("u", "p") .transportError).1.url = "https://x.test/api/catalogs" ∧
    (send_post_request "/api/catalogs" [] [("base_url", "https://x.test/")]
        ("u", "p") .transportError).1.url = "https://x.test//api/catalogs" := by
  refine ⟨?_, rfl, rfl⟩
  intro j m hm oracle
  exact process_calls_inv (P := fun r => r.url = m.base_url ++ r.endpoint)
    j m hm oracle (fun e d => rfl)

theorem url_is_exact_concatenation_witness :
    (⟨"/api/catalogs", "https://x.test/api/catalogs",
      [("title", Json.str "cat")], mkHeaders sampleMeta,
      ("u", "p")⟩ : Request).url =
      sampleMeta.base_url ++ "/api/catalogs" :=
  url_is_exact_concatenation.1 sampleDoc sampleMeta rfl [.transportError] _
    (List.Mem.head _)

/-- Claim C9 (implicit): because the same dictionary serves as header set
and as carrier of the base URL, every outgoing POST carries — besides
`Content-Type` and `Authorization` — a non-standard `base_url` header whose
value is the document's base URL, disclosing it to the upstream server. -/
theorem base_url_header_disclosed (j : Json) (m : Metadata)
    (hm : validateMetadata j = .ok m) (oracle : List HttpOutcome) :
    ∀ r ∈ (process_metadata (.ok j) oracle).1,
      r.headers = mkHeaders m ∧
      hget r.headers "base_url" = m.base_url ∧
      hget r.headers "Content-Type" = "application/json" := by
  have h := process_calls_inv (P := fun r => r.headers = mkHeaders m) j m hm
    oracle (fun _ _ => rfl)
  intro r hr
  refine ⟨h r hr, ?_, ?_⟩ <;> rw [h r hr] <;> rfl

theorem base_url_header_disclosed_witness :
    (Request.mk "/api/catalogs" "https://x.test/api/catalogs"
        [("title", Json.str "cat")] (mkHeaders sampleMeta) ("u", "p")).headers
      = mkHeaders sampleMeta ∧
    hget (Request.mk "/api/catalogs" "https://x.test/api/catalogs"
        [("title", Json.str "cat")] (mkHeaders sampleMeta) ("u", "p")).headers
      "base_url" = "https://x.test" ∧
    hget (Request.mk "/api/catalogs" "https://x.test/api/catalogs"
        [("title", Json.str "cat")] (mkHeaders sampleMeta) ("u", "p")).headers
      "Content-Type" = "application/json" :=
  base_url_header_disclosed sampleDoc sampleMeta rfl [.transportError] _
    (List.Mem.head _)

/-- Claim C10 (implicit): if a dependency step (catalog, offer, contract or
representation) succeeds but its decoded body has no `id` key, the run
aborts with the `KeyError` raised while building the dependent step's
f-string: exactly the steps before the dependent one are issued (they remain
committed upstream — no compensating call is made), the dependent step and
everything after it never run, and the client receives HTTP 400. -/
theorem missing_id_aborts_mid_pipeline (j : Json) (m : Metadata)
    (hm : validateMetadata j = .ok m)
    (gs : ℕ → ℕ) (gn : ℕ → String) (gb : ℕ → Json) (gi : ℕ → String)
    (hgood : ∀ k, gs k < 400) (rest : List HttpOutcome) :
    ((gb 0).lookup "id" = none →
       process_metadata (.ok j)
           ((List.range 3).map (goodEntry gs gn gb) ++ rest) =
         (prefixCalls m gi 3,
          .clientError 400 ("Failed to process metadata: " ++
            strExc (.keyError "id")))) ∧
    ((gb 0).lookup "id" = some (.str (gi 0)) → (gb 2).lookup "id" = none →
       process_metadata (.ok j)
           ((List.range 4).map (goodEntry gs gn gb) ++ rest) =
         (prefixCalls m gi 4,
          .clientError 400 ("Failed to process metadata: " ++
            strExc (.keyError "id")))) ∧
    ((gb 0).lookup "id" = some (.str (gi 0)) →
     (gb 2).lookup "id" = some (.str (gi 2)) → (gb 5).lookup "id" = none →
       process_metadata (.ok j)
           ((List.range 7).map (goodEntry gs gn gb) ++ rest) =
         (prefixCalls m gi 7,
          .clientError 400 ("Failed to process metadata: " ++
            strExc (.keyError "id")))) ∧
    ((gb 0).lookup "id" = some (.str (gi 0)) →
     (gb 2).lookup "id" = some (.str (gi 2)) →
     (gb 5).lookup "id" = some (.str (gi 5)) → (gb 1).lookup "id" = none →
       process_metadata (.ok j)
           ((List.range 9).map (goodEntry gs gn gb) ++ rest) =
         (prefixCalls m gi 9,
          .clientError 400 ("Failed to process metadata: " ++
            strExc (.keyError "id")))) := by
  refine ⟨fun hn0 => ?_, fun h0 hn2 => ?_, fun h0 h2 hn5 => ?_,
          fun h0 h2 h5 hn1 => ?_⟩ <;>
  · simp only [List.range_succ, List.range_zero, List.map_append,
      List.map_cons, List.map_nil, List.append_assoc, List.cons_append,
      List.nil_append, List.singleton_append]
    simp only [process_metadata, process_metadata_core, hm, pipeline, pbind,
      post, plift, pret, goodEntry,
      send_post_request_ok (hgood 0), send_post_request_ok (hgood 1),
      send_post_request_ok (hgood 2), send_post_request_ok (hgood 3),
      send_post_request_ok (hgood 4), send_post_request_ok (hgood 5),
      send_post_request_ok (hgood 6), send_post_request_ok (hgood 7),
      send_post_request_ok (hgood 8),
      getId, pyStr, hget_mkHeaders_base,
      prefixCalls, stepEndpoint, stepPayload, strAnyExc, strExc,
      Except.mapError, *]
    try simp [List.range_succ]

theorem missing_id_aborts_mid_pipeline_witness :
    process_metadata (.ok sampleDoc)
        ((List.range 3).map
            (goodEntry (fun _ => 201) (fun _ => "Created")
              (fun _ => .obj [])) ++ []) =
      (prefixCalls sampleMeta sampleIds 3,
       .clientError 400 ("Failed to process metadata: " ++
         strExc (.keyError "id"))) :=
  (missing_id_aborts_mid_pipeline sampleDoc sampleMeta rfl
    (fun _ => 201) (fun _ => "Created") (fun _ => .obj []) sampleIds
    (fun _ => by norm_num) []).1 rfl

end HelloWorldOffer
